import Mathlib

/-!
# Verification of the WebSocket relay in `deploy/lambda_handler.py`

A shallow embedding of the relay module: `get_apigw_client`, `send_message`,
`call_a2a_agent`, and `lambda_handler` (the synchronous WebSocket routes and
the asynchronous self-re-invocation path), together with theorems settling the
spec's testable properties.

Modelling decisions, stated once here:

* Python exceptions are values of `PyErr`; a function that can raise returns
  `Except PyErr α`.  The broad `except Exception` handlers of the source are
  embedded as total functions that pattern-match on the inner `Except`.
* A JSON string field read with `dict.get(k)` is an `Option String`
  (`none` = field absent).  The inbound request schema has no `null`-valued
  fields, so absent-vs-null is not distinguished for the request body.
  The payload of the async re-invocation *can* carry `null` values that the
  code itself produced (e.g. a missing request id), so its fields are
  `Option PyStr`: the outer `Option` is key presence (subscripting a missing
  key raises `KeyError`), the inner `PyStr := Option String` is the value,
  which may be Python `None`.
* `chunk['bytes'].decode('utf-8')` is modelled by storing the decoded string
  directly in `Chunk.bytes`; a chunk without a `bytes` key is `none`.
* The external world (API Gateway post, Bedrock invoke_agent, Lambda invoke)
  is an `Env` of oracle functions; the module-level `apigw` cache is threaded
  explicitly as an `Option ApigwClient`.
* Every call to `send_message` appends one `SentMessage` record to an output
  trace: the connection id, the message, whether delivery succeeded, and the
  client instance used (`none` when client construction itself failed).
-/

namespace Relay

/-- A Python value that is either `None` or a string. -/
abbrev PyStr := Option String

/-- A Python-level exception, carrying its description (`str(e)`). -/
structure PyErr where
  msg : String
deriving DecidableEq, Repr

/-- Python `str()` of a string-or-None value, as used in f-string interpolation. -/
def pyStr : PyStr → String
  | none => "None"
  | some s => s

/-- The `requestContext` of a WebSocket event; every field read by the code,
each possibly absent. -/
structure RequestContext where
  routeKey : Option String
  connectionId : Option String
  domainName : Option String
  stage : Option String
deriving DecidableEq, Repr

/-- The request body carried by a `$default` event:
`{id, agentType, message, sessionId}`, each field possibly absent. -/
structure RequestBody where
  id : Option String
  agentType : Option String
  message : Option String
  sessionId : Option String
deriving DecidableEq, Repr

/-- Result of `json.loads(event.get('body', '{}'))`: either the parse (or the
subsequent `.get` on a non-dict result) raises, or it yields a dict.  An event
without a `body` key is modelled as `dict` of the all-absent body, matching the
`'{}'` default. -/
inductive BodyVal where
  | invalid (e : PyErr)
  | dict (b : RequestBody)
deriving DecidableEq, Repr

/-- A WebSocket event as seen by the handler: a `requestContext` (possibly
absent) and a body. -/
structure WsEvent where
  requestContext : Option RequestContext
  body : BodyVal
deriving DecidableEq, Repr

/-- `event.get('requestContext', \x7b\x7d).get('routeKey')`. -/
def wsRouteKey (e : WsEvent) : Option String :=
  e.requestContext.bind fun rc => rc.routeKey

/-- `event.get('requestContext', \x7b\x7d).get('connectionId')`. -/
def wsConnId (e : WsEvent) : Option String :=
  e.requestContext.bind fun rc => rc.connectionId

/-- The `async_processing` payload.  Outer `Option` = key presence
(subscripting a missing key raises `KeyError`); inner `PyStr` = the value,
possibly Python `None`. -/
structure AsyncPayload where
  agentType : Option PyStr
  message : Option PyStr
  requestId : Option PyStr
  sessionId : Option PyStr
  connectionId : Option PyStr
  event : Option WsEvent
deriving DecidableEq, Repr

/-- A Lambda invocation event: either a plain WebSocket event, or an event
carrying the `async_processing` marker field. -/
inductive LambdaEvent where
  | ws (e : WsEvent)
  | asyncProcessing (p : AsyncPayload)
deriving DecidableEq, Repr

/-- One streamed completion chunk; `bytes` holds the UTF-8-decoded payload,
`none` models a chunk dict without a `bytes` key. -/
structure Chunk where
  bytes : Option String
deriving DecidableEq, Repr

/-- One fragment of the `completion` stream; `chunk` is `none` for a fragment
without a `chunk` key. -/
structure CompletionFragment where
  chunk : Option Chunk
deriving DecidableEq, Repr

/-- The dict returned by `call_a2a_agent`: `{response, sessionId}`. -/
structure AgentResult where
  response : String
  sessionId : PyStr
deriving DecidableEq, Repr

/-- The JSON notification messages pushed over the WebSocket connection. -/
inductive Message where
  | connected (message : String)
  | acknowledged (requestId : Option String) (agentType : Option String)
  | progress (requestId : Option String) (message : String)
  | response (requestId : Option String) (agentType : Option String)
      (response : String) (sessionId : Option String)
  | error (requestId : Option String) (error : String)
deriving DecidableEq, Repr

/-- The `type` discriminator a message would carry on the wire. -/
def msgType : Message → String
  | Message.connected _ => "connected"
  | Message.acknowledged _ _ => "acknowledged"
  | Message.progress _ _ => "progress"
  | Message.response _ _ _ _ => "response"
  | Message.error _ _ => "error"

/-- The `requestId` field of a message, when it has one. -/
def msgRequestId : Message → Option String
  | Message.connected _ => none
  | Message.acknowledged r _ => r
  | Message.progress r _ => r
  | Message.response r _ _ _ => r
  | Message.error r _ => r

/-- The cached `apigatewaymanagementapi` client, identified by the endpoint URL
it was constructed with. -/
structure ApigwClient where
  endpoint : String
deriving DecidableEq, Repr

/-- One `send_message` call, recorded in the output trace: target connection,
message, whether delivery succeeded, and the client used (`none` when client
construction failed before a post was attempted). -/
structure SentMessage where
  connectionId : Option String
  message : Message
  delivered : Bool
  client : Option ApigwClient
deriving DecidableEq, Repr

/-- The external world for one invocation: the two agent ARNs from the
environment, and oracles for `post_to_connection` (`none` = success),
`invoke_agent` (agent id, session id, input text), and the async
`lambda_client.invoke` (`none` = accepted). -/
structure Env where
  onboardingArn : String
  provisioningArn : String
  postToConnection : ApigwClient → Option String → Message → Option PyErr
  invokeAgent : String → PyStr → String → Except PyErr (List CompletionFragment)
  lambdaInvoke : AsyncPayload → Option PyErr

/-- `get_apigw_client(event)`: return the cached client if present; otherwise
construct it from `event['requestContext']['domainName']` and `['stage']`
(raising `KeyError` if either is missing) and cache it.  Returns the client
and the new cache state. -/
def get_apigw_client (apigw : Option ApigwClient) (event : WsEvent) :
    Except PyErr (ApigwClient × Option ApigwClient) :=
  match apigw with
  | some client => Except.ok (client, some client)
  | none =>
    match event.requestContext with
    | none => Except.error ⟨"KeyError: requestContext"⟩
    | some rc =>
      match rc.domainName with
      | none => Except.error ⟨"KeyError: domainName"⟩
      | some domain =>
        match rc.stage with
        | none => Except.error ⟨"KeyError: stage"⟩
        | some stage =>
          let client : ApigwClient := ⟨"https://" ++ domain ++ "/" ++ stage⟩
          Except.ok (client, some client)

/-- `send_message(connection_id, message, event)`: get (or construct) the
client, post the JSON-serialized message, return `True` on success; any
exception is caught and yields `False`.  Returns the new cache state, the
boolean result, and the one-entry trace of this attempt. -/
def send_message (env : Env) (apigw : Option ApigwClient) (connection_id : Option String)
    (message : Message) (event : WsEvent) :
    Option ApigwClient × Bool × List SentMessage :=
  match get_apigw_client apigw event with
  | Except.error _ => (apigw, false, [⟨connection_id, message, false, none⟩])
  | Except.ok (client, st1) =>
    match env.postToConnection client connection_id message with
    | none => (st1, true, [⟨connection_id, message, true, some client⟩])
    | some _ => (st1, false, [⟨connection_id, message, false, some client⟩])

/-- `agent_arn.split('/')[-1]`. -/
def arnAgentId (arn : String) : String :=
  (arn.splitOn "/").getLastD ""

/-- The collection loop of `call_a2a_agent`: fold over the completion stream,
appending the decoded bytes of every fragment that has a chunk with bytes. -/
def collectCompletion (events : List CompletionFragment) : String :=
  events.foldl
    (fun acc ev =>
      match ev.chunk with
      | some c =>
        match c.bytes with
        | some b => acc ++ b
        | none => acc
      | none => acc)
    ""

/-- `call_a2a_agent(agent_arn, message, session_id)`: logs (slicing `message`,
which raises `TypeError` when the message is `None`), extracts the agent id
from the ARN, invokes the agent, and concatenates the streamed chunks; any
exception from the invocation is logged and re-raised. -/
def call_a2a_agent (env : Env) (agent_arn : String) (message : PyStr) (session_id : PyStr) :
    Except PyErr AgentResult :=
  match message with
  | none => Except.error ⟨"TypeError: NoneType object is not subscriptable"⟩
  | some msg =>
    let agent_id := arnAgentId agent_arn
    match env.invokeAgent agent_id session_id msg with
    | Except.error e => Except.error e
    | Except.ok events => Except.ok ⟨collectCompletion events, session_id⟩

/-- `ONBOARDING_AGENT_ARN if agent_type == 'onboarding' else PROVISIONING_AGENT_ARN`. -/
def resolveAgentArn (env : Env) (agent_type : PyStr) : String :=
  if agent_type = some "onboarding" then env.onboardingArn else env.provisioningArn

/-- `body.get('sessionId', "session-" + str(request_id))` with
`request_id = body.get('id')`. -/
def derivedSessionId (b : RequestBody) : String :=
  b.sessionId.getD ("session-" ++ pyStr b.id)

/-- The `async_processing` payload the `$default` branch serializes into its
self-re-invocation: every key present, values as computed by the handler. -/
def defaultPayload (e : WsEvent) (b : RequestBody) : AsyncPayload :=
  ⟨some (some (b.agentType.getD "onboarding")),
   some b.message,
   some b.id,
   some (some (derivedSessionId b)),
   some (wsConnId e),
   some e⟩

/-- The async-processing branch of `lambda_handler`: subscript the six payload
fields (raising `KeyError` on a missing key — these reads precede the `try`),
then inside the `try`: send `progress`, resolve the agent, invoke it, send
`response`; on any exception send `error`; finally return status 200. -/
def handleAsync (env : Env) (apigw0 : Option ApigwClient) (p : AsyncPayload) :
    Except PyErr (Nat × Option ApigwClient × List SentMessage) :=
  match p.agentType with
  | none => Except.error ⟨"KeyError: agentType"⟩
  | some agent_type =>
  match p.message with
  | none => Except.error ⟨"KeyError: message"⟩
  | some message =>
  match p.requestId with
  | none => Except.error ⟨"KeyError: requestId"⟩
  | some request_id =>
  match p.sessionId with
  | none => Except.error ⟨"KeyError: sessionId"⟩
  | some session_id =>
  match p.connectionId with
  | none => Except.error ⟨"KeyError: connectionId"⟩
  | some connection_id =>
  match p.event with
  | none => Except.error ⟨"KeyError: event"⟩
  | some original_event =>
    let s1 := send_message env apigw0 connection_id
      (Message.progress request_id "Agent is thinking...") original_event
    let agent_arn := resolveAgentArn env agent_type
    match call_a2a_agent env agent_arn message session_id with
    | Except.ok result =>
      let s2 := send_message env s1.1 connection_id
        (Message.response request_id agent_type result.response result.sessionId)
        original_event
      Except.ok (200, s2.1, s1.2.2 ++ s2.2.2)
    | Except.error e =>
      let s2 := send_message env s1.1 connection_id
        (Message.error request_id e.msg) original_event
      Except.ok (200, s2.1, s1.2.2 ++ s2.2.2)

/-- The WebSocket-route section of `lambda_handler` (everything inside the
outer `try`, plus its `except` handler).  Returns the status code, the new
client-cache state, the trace of send attempts, and the list of async
payloads successfully handed to `lambda_client.invoke`. -/
def handleWs (env : Env) (apigw0 : Option ApigwClient) (e : WsEvent) :
    Nat × Option ApigwClient × List SentMessage × List AsyncPayload :=
  let route_key := wsRouteKey e
  let connection_id := wsConnId e
  if route_key = some "$connect" then
    let s1 := send_message env apigw0 connection_id
      (Message.connected "Connected to Agentic-Architect") e
    (200, s1.1, s1.2.2, [])
  else if route_key = some "$disconnect" then
    (200, apigw0, [], [])
  else if route_key = some "$default" then
    match e.body with
    | BodyVal.invalid _ =>
      -- json.loads raised; the except handler's own send references the
      -- unbound `body`, raises, and is swallowed by the inner bare except.
      (500, apigw0, [], [])
    | BodyVal.dict b =>
      let request_id := b.id
      let agent_type := b.agentType.getD "onboarding"
      let s1 := send_message env apigw0 connection_id
        (Message.acknowledged request_id (some agent_type)) e
      let payload := defaultPayload e b
      match env.lambdaInvoke payload with
      | none => (200, s1.1, s1.2.2, [payload])
      | some err =>
        -- outer except: route_key is $default, so try to send an error
        -- notification with body.get('id') and str(e), then return 500.
        let s2 := send_message env s1.1 connection_id
          (Message.error request_id err.msg) e
        (500, s2.1, s1.2.2 ++ s2.2.2, [])
  else
    (400, apigw0, [], [])

/-- `lambda_handler(event, context)`: dispatch on the `async_processing`
marker.  The WebSocket section never raises (its outer `try` catches
everything); the async section can raise only from its pre-`try` payload
subscripts. -/
def lambda_handler (env : Env) (apigw0 : Option ApigwClient) (event : LambdaEvent) :
    Except PyErr (Nat × Option ApigwClient × List SentMessage × List AsyncPayload) :=
  match event with
  | LambdaEvent.asyncProcessing p =>
    match handleAsync env apigw0 p with
    | Except.ok (status, st, t) => Except.ok (status, st, t, [])
    | Except.error e => Except.error e
  | LambdaEvent.ws e => Except.ok (handleWs env apigw0 e)

/-- Spec-side description of the streaming concatenation (§4.3): the
concatenation, in delivery order, of the decoded payloads of exactly those
fragments that carry a chunk with bytes. -/
def specChunkConcat (events : List CompletionFragment) : String :=
  (events.filterMap fun f => f.chunk.bind Chunk.bytes).foldr (fun a b => a ++ b) ""

/-! ## Helper lemmas -/

/-- `send_message` always returns normally, with a single trace entry carrying
the connection id, the message and its own boolean result. -/
theorem send_message_shape (env : Env) (st : Option ApigwClient) (cid : Option String)
    (msg : Message) (e : WsEvent) :
    ∃ st2 b cl, send_message env st cid msg e = (st2, b, [⟨cid, msg, b, cl⟩]) := by
  unfold send_message
  cases hg : get_apigw_client st e with
  | error err => exact ⟨st, false, none, rfl⟩
  | ok r =>
    obtain ⟨client, st1⟩ := r
    cases hp : env.postToConnection client cid msg with
    | none => exact ⟨st1, true, some client, by simp [hp]⟩
    | some err => exact ⟨st1, false, some client, by simp [hp]⟩

theorem collectCompletion_go (events : List CompletionFragment) (acc : String) :
    events.foldl
      (fun acc ev =>
        match ev.chunk with
        | some c =>
          match c.bytes with
          | some b => acc ++ b
          | none => acc
        | none => acc)
      acc = acc ++ specChunkConcat events := by
  induction events generalizing acc with
  | nil => simp [specChunkConcat]
  | cons ev rest ih =>
    cases hc : ev.chunk with
    | none =>
      simp only [List.foldl_cons, hc, specChunkConcat, List.filterMap_cons, Option.none_bind]
      exact ih acc
    | some c =>
      cases hb : c.bytes with
      | none =>
        simp only [List.foldl_cons, hc, hb, specChunkConcat, List.filterMap_cons,
          Option.some_bind]
        exact ih acc
      | some b =>
        simp only [List.foldl_cons, hc, hb, specChunkConcat, List.filterMap_cons,
          Option.some_bind, List.foldr_cons]
        rw [ih (acc ++ b), String.append_assoc]
        rfl

/-- The collection loop computes exactly the spec-side concatenation. -/
theorem collectCompletion_eq_spec (events : List CompletionFragment) :
    collectCompletion events = specChunkConcat events := by
  have h := collectCompletion_go events ""
  rw [collectCompletion, h, String.empty_append]

/-! ## Concrete fixtures for witnesses and counterexamples -/

/-- A request context with every field present. -/
def wRC : RequestContext :=
  ⟨some "$default", some "conn-1", some "ws.example.com", some "prod"⟩

/-- A well-formed `$default` body with no `sessionId`. -/
def wBody : RequestBody := ⟨some "r1", some "onboarding", some "hello", none⟩

/-- A well-formed `$default` event. -/
def wEvent : WsEvent := ⟨some wRC, BodyVal.dict wBody⟩

/-- A `$connect` event. -/
def wConnectEvent : WsEvent :=
  ⟨some ⟨some "$connect", some "conn-1", some "ws.example.com", some "prod"⟩,
   BodyVal.dict ⟨none, none, none, none⟩⟩

/-- A `$disconnect` event. -/
def wDisconnectEvent : WsEvent :=
  ⟨some ⟨some "$disconnect", some "conn-1", some "ws.example.com", some "prod"⟩,
   BodyVal.dict ⟨none, none, none, none⟩⟩

/-- A completion stream with data-bearing, chunkless, and byteless fragments. -/
def wFrags : List CompletionFragment :=
  [⟨some ⟨some "Hello "⟩⟩, ⟨none⟩, ⟨some ⟨none⟩⟩, ⟨some ⟨some "world"⟩⟩]

/-- An environment in which every external call succeeds and the agent streams
`wFrags`. -/
def wEnv : Env :=
  ⟨"arn:aws:bedrock:us-east-1:123:agent/OB1",
   "arn:aws:bedrock:us-east-1:123:agent/PR1",
   fun _ _ _ => none,
   fun _ _ _ => Except.ok wFrags,
   fun _ => none⟩

/-- An environment in which the agent invocation raises `TimeoutError`. -/
def wEnvFail : Env :=
  ⟨"arn:aws:bedrock:us-east-1:123:agent/OB1",
   "arn:aws:bedrock:us-east-1:123:agent/PR1",
   fun _ _ _ => none,
   fun _ _ _ => Except.error ⟨"TimeoutError"⟩,
   fun _ => none⟩

/-- A well-formed async payload, as the `$default` branch would construct it
from `wEvent`. -/
def wPayload : AsyncPayload := defaultPayload wEvent wBody

/-- An `async_processing` payload with every key missing. -/
def wEmptyPayload : AsyncPayload := ⟨none, none, none, none, none, none⟩

/-! ## Async-path helper lemmas -/

/-- When every payload key is present and the agent call succeeds, the async
branch sends `progress` then `response` and returns 200. -/
theorem handleAsync_call_ok (env : Env) (st : Option ApigwClient)
    (aty msg rid sid cid : PyStr) (ev : WsEvent) (res : AgentResult)
    (hca : call_a2a_agent env (resolveAgentArn env aty) msg sid = Except.ok res) :
    ∃ st2 b1 b2 cl1 cl2,
      handleAsync env st ⟨some aty, some msg, some rid, some sid, some cid, some ev⟩ =
        Except.ok (200, st2,
          [⟨cid, Message.progress rid "Agent is thinking...", b1, cl1⟩,
           ⟨cid, Message.response rid aty res.response res.sessionId, b2, cl2⟩]) := by
  obtain ⟨s1, b1, cl1, hs1⟩ := send_message_shape env st cid
    (Message.progress rid "Agent is thinking...") ev
  obtain ⟨s2, b2, cl2, hs2⟩ := send_message_shape env s1 cid
    (Message.response rid aty res.response res.sessionId) ev
  refine ⟨s2, b1, b2, cl1, cl2, ?_⟩
  simp only [handleAsync, hs1, hca, hs2]
  rfl

/-- When every payload key is present and the agent call raises, the async
branch sends `progress` then `error` and returns 200. -/
theorem handleAsync_call_error (env : Env) (st : Option ApigwClient)
    (aty msg rid sid cid : PyStr) (ev : WsEvent) (err : PyErr)
    (hca : call_a2a_agent env (resolveAgentArn env aty) msg sid = Except.error err) :
    ∃ st2 b1 b2 cl1 cl2,
      handleAsync env st ⟨some aty, some msg, some rid, some sid, some cid, some ev⟩ =
        Except.ok (200, st2,
          [⟨cid, Message.progress rid "Agent is thinking...", b1, cl1⟩,
           ⟨cid, Message.error rid err.msg, b2, cl2⟩]) := by
  obtain ⟨s1, b1, cl1, hs1⟩ := send_message_shape env st cid
    (Message.progress rid "Agent is thinking...") ev
  obtain ⟨s2, b2, cl2, hs2⟩ := send_message_shape env s1 cid
    (Message.error rid err.msg) ev
  refine ⟨s2, b1, b2, cl1, cl2, ?_⟩
  simp only [handleAsync, hs1, hca, hs2]
  rfl

/-- When the `$default` body parses to a dict and the async self-invocation is
accepted, the handler sends one `acknowledged` notification, schedules exactly
the `defaultPayload`, and returns 200. -/
theorem handleWs_default_ok (env : Env) (st : Option ApigwClient) (e : WsEvent)
    (b : RequestBody)
    (h1 : wsRouteKey e = some "$default") (h2 : e.body = BodyVal.dict b)
    (h5 : env.lambdaInvoke (defaultPayload e b) = none) :
    ∃ st2 bb cl,
      lambda_handler env st (LambdaEvent.ws e) =
        Except.ok (200, st2,
          [⟨wsConnId e, Message.acknowledged b.id (some (b.agentType.getD "onboarding")), bb, cl⟩],
          [defaultPayload e b]) := by
  obtain ⟨st2, bb, cl, hs⟩ := send_message_shape env st (wsConnId e)
    (Message.acknowledged b.id (some (b.agentType.getD "onboarding"))) e
  refine ⟨st2, bb, cl, ?_⟩
  simp only [lambda_handler, handleWs, h1, h2]
  simp [hs, h5]

/-! ## Claim theorems -/

/-- C4: in the async entry, agentType `onboarding` resolves to the onboarding
agent identifier, and every other value — `provisioning`, unrecognized strings,
and `None` alike — resolves to the provisioning agent identifier, the single
fallback identity. -/
theorem c4_agent_type_resolution (env : Env) :
    resolveAgentArn env (some "onboarding") = env.onboardingArn ∧
    ∀ t : PyStr, t ≠ some "onboarding" → resolveAgentArn env t = env.provisioningArn := by
  constructor
  · simp [resolveAgentArn]
  · intro t ht
    simp [resolveAgentArn, ht]

/-- Witness for C4 at agentType values `onboarding`, `provisioning`, an
unrecognized string, and `None`. -/
theorem c4_agent_type_resolution_witness :
    resolveAgentArn wEnv (some "onboarding") = wEnv.onboardingArn ∧
    resolveAgentArn wEnv (some "provisioning") = wEnv.provisioningArn ∧
    resolveAgentArn wEnv (some "bogus") = wEnv.provisioningArn ∧
    resolveAgentArn wEnv none = wEnv.provisioningArn :=
  ⟨(c4_agent_type_resolution wEnv).1,
   (c4_agent_type_resolution wEnv).2 (some "provisioning") (by decide),
   (c4_agent_type_resolution wEnv).2 (some "bogus") (by decide),
   (c4_agent_type_resolution wEnv).2 none (by decide)⟩

/-- C5: when the `$default` body omits `sessionId`, the derived session id is
the string `session-` concatenated with the request id — also in the async
payload the handler schedules — and it is a deterministic function of the
request id. -/
theorem c5_derived_session_id (e : WsEvent) (b : RequestBody) (rid : String)
    (h1 : b.sessionId = none) (h2 : b.id = some rid) :
    derivedSessionId b = "session-" ++ rid ∧
    (defaultPayload e b).sessionId = some (some ("session-" ++ rid)) ∧
    ∀ b2 : RequestBody, b2.id = b.id → b2.sessionId = none →
      derivedSessionId b2 = derivedSessionId b := by
  have hd : derivedSessionId b = "session-" ++ rid := by
    simp [derivedSessionId, h1, h2, pyStr]
  refine ⟨hd, ?_, ?_⟩
  · simp [defaultPayload, hd]
  · intro b2 h3 h4
    simp [derivedSessionId, h4, h1, h3]

/-- Witness for C5 on the request `{id: r1, agentType: onboarding,
message: hello}` with no sessionId. -/
theorem c5_derived_session_id_witness :
    derivedSessionId wBody = "session-" ++ "r1" ∧
    (defaultPayload wEvent wBody).sessionId = some (some ("session-" ++ "r1")) ∧
    ∀ b2 : RequestBody, b2.id = wBody.id → b2.sessionId = none →
      derivedSessionId b2 = derivedSessionId wBody :=
  c5_derived_session_id wEvent wBody "r1" rfl rfl

/-- C6: whenever the agent invocation succeeds, `call_a2a_agent` returns the
concatenation, in delivery order, of the decoded payloads of exactly those
completion fragments carrying a chunk with bytes, with the input session id
echoed back unchanged. -/
theorem c6_call_agent_concatenation (env : Env) (arn : String) (msg : String)
    (sid : PyStr) (events : List CompletionFragment)
    (h : env.invokeAgent (arnAgentId arn) sid msg = Except.ok events) :
    call_a2a_agent env arn (some msg) sid = Except.ok ⟨specChunkConcat events, sid⟩ := by
  simp [call_a2a_agent, h, collectCompletion_eq_spec]

/-- Witness for C6: a stream with two data-bearing fragments, one chunkless
fragment and one byteless chunk concatenates to `Hello world`. -/
theorem c6_call_agent_concatenation_witness :
    call_a2a_agent wEnv "arn:aws:bedrock:us-east-1:123:agent/OB1" (some "hello") (some "s1") =
      Except.ok ⟨specChunkConcat wFrags, some "s1"⟩ ∧
    specChunkConcat wFrags = "Hello world" :=
  ⟨c6_call_agent_concatenation wEnv "arn:aws:bedrock:us-east-1:123:agent/OB1" "hello"
     (some "s1") wFrags rfl, rfl⟩

/-- C7: `send_message` always returns normally — `true` exactly when the
client was obtained and the post succeeded, `false` on any caught failure —
and the synchronous `lambda_handler` entry never propagates an exception,
whatever the delivery outcome. -/
theorem c7_send_message_never_raises (env : Env) (st : Option ApigwClient)
    (cid : Option String) (msg : Message) (e : WsEvent) :
    (∃ r, lambda_handler env st (LambdaEvent.ws e) = Except.ok r) ∧
    (∃ st2 b cl, send_message env st cid msg e = (st2, b, [⟨cid, msg, b, cl⟩]) ∧
      (b = true ↔ ∃ client st3, get_apigw_client st e = Except.ok (client, st3) ∧
        env.postToConnection client cid msg = none)) := by
  refine ⟨⟨handleWs env st e, rfl⟩, ?_⟩
  unfold send_message
  cases hg : get_apigw_client st e with
  | error err =>
    exact ⟨st, false, none, rfl, by simp [hg]⟩
  | ok r =>
    obtain ⟨client, st1⟩ := r
    cases hp : env.postToConnection client cid msg with
    | none => exact ⟨st1, true, some client, by simp [hp], by simp [hg, hp]⟩
    | some err => exact ⟨st1, false, some client, by simp [hp], by simp [hg, hp]⟩

/-- C8: the connection-management client is constructed only while the cached
value is `None`, from that event's `domainName` and `stage`; once cached, every
later send reuses the cached instance whatever the later event contains. -/
theorem c8_client_constructed_once (env : Env) (c : ApigwClient) (e e2 : WsEvent)
    (rc : RequestContext) (d s : String)
    (h1 : e.requestContext = some rc) (h2 : rc.domainName = some d)
    (h3 : rc.stage = some s) :
    get_apigw_client none e =
      Except.ok (⟨"https://" ++ d ++ "/" ++ s⟩, some ⟨"https://" ++ d ++ "/" ++ s⟩) ∧
    get_apigw_client (some c) e2 = Except.ok (c, some c) ∧
    ∀ cid msg, ∃ b,
      send_message env (some c) cid msg e2 = (some c, b, [⟨cid, msg, b, some c⟩]) := by
  refine ⟨?_, rfl, ?_⟩
  · simp [get_apigw_client, h1, h2, h3]
  · intro cid msg
    unfold send_message
    cases hp : env.postToConnection c cid msg with
    | none => exact ⟨true, by simp [get_apigw_client, hp]⟩
    | some err => exact ⟨false, by simp [get_apigw_client, hp]⟩

/-- Witness for C8: first construction from `wEvent`, then reuse of a cached
client on a later event with different addressing context. -/
theorem c8_client_constructed_once_witness :
    get_apigw_client none wEvent =
      Except.ok (⟨"https://" ++ "ws.example.com" ++ "/" ++ "prod"⟩,
        some ⟨"https://" ++ "ws.example.com" ++ "/" ++ "prod"⟩) ∧
    get_apigw_client (some ⟨"https://cached/ep"⟩) wDisconnectEvent =
      Except.ok (⟨"https://cached/ep"⟩, some ⟨"https://cached/ep"⟩) ∧
    ∀ cid msg, ∃ b,
      send_message wEnv (some ⟨"https://cached/ep"⟩) cid msg wDisconnectEvent =
        (some ⟨"https://cached/ep"⟩, b, [⟨cid, msg, b, some ⟨"https://cached/ep"⟩⟩]) :=
  c8_client_constructed_once wEnv ⟨"https://cached/ep"⟩ wEvent wDisconnectEvent
    wRC "ws.example.com" "prod" rfl rfl rfl

/-- C9: every `$connect` event yields status 200 and one `connected`
notification to the originating connection; every `$disconnect` event yields
status 200 and no notification. -/
theorem c9_connect_disconnect (env : Env) (st : Option ApigwClient) (e e2 : WsEvent)
    (hc : wsRouteKey e = some "$connect") (hd : wsRouteKey e2 = some "$disconnect") :
    (∃ st2 b cl, lambda_handler env st (LambdaEvent.ws e) =
      Except.ok (200, st2,
        [⟨wsConnId e, Message.connected "Connected to Agentic-Architect", b, cl⟩], [])) ∧
    lambda_handler env st (LambdaEvent.ws e2) = Except.ok (200, st, [], []) := by
  constructor
  · obtain ⟨st2, b, cl, hs⟩ := send_message_shape env st (wsConnId e)
      (Message.connected "Connected to Agentic-Architect") e
    refine ⟨st2, b, cl, ?_⟩
    simp only [lambda_handler, handleWs, hc]
    simp [hs]
  · simp only [lambda_handler, handleWs, hd]
    simp

/-- Witness for C9 on concrete `$connect` and `$disconnect` events. -/
theorem c9_connect_disconnect_witness :
    (∃ st2 b cl, lambda_handler wEnv none (LambdaEvent.ws wConnectEvent) =
      Except.ok (200, st2,
        [⟨wsConnId wConnectEvent, Message.connected "Connected to Agentic-Architect", b, cl⟩],
        [])) ∧
    lambda_handler wEnv none (LambdaEvent.ws wDisconnectEvent) = Except.ok (200, none, [], []) :=
  c9_connect_disconnect wEnv none wConnectEvent wDisconnectEvent rfl rfl

/-- C1: for a `$default` event with a well-formed body whose async
re-invocation is accepted, the synchronous call emits exactly one
`acknowledged`, and the re-invocation on the scheduled payload emits the
single `progress` followed by exactly one terminal — `response` xor `error` —
carrying the request id, in that order. -/
theorem c1_default_notification_sequence (env : Env) (st0 st1 : Option ApigwClient)
    (e : WsEvent) (b : RequestBody) (rid m : String)
    (h1 : wsRouteKey e = some "$default") (h2 : e.body = BodyVal.dict b)
    (h3 : b.id = some rid) (_h4 : b.message = some m)
    (h5 : env.lambdaInvoke (defaultPayload e b) = none) :
    ∃ stA stB t1 t2 term,
      lambda_handler env st0 (LambdaEvent.ws e) =
        Except.ok (200, stA, t1, [defaultPayload e b]) ∧
      lambda_handler env st1 (LambdaEvent.asyncProcessing (defaultPayload e b)) =
        Except.ok (200, stB, t2, []) ∧
      (t1 ++ t2).map SentMessage.message =
        [Message.acknowledged (some rid) (some (b.agentType.getD "onboarding")),
         Message.progress (some rid) "Agent is thinking...", term] ∧
      msgRequestId term = some rid ∧
      ((msgType term = "response" ∧ msgType term ≠ "error") ∨
       (msgType term = "error" ∧ msgType term ≠ "response")) := by
  obtain ⟨stA, bb, cl, hws⟩ := handleWs_default_ok env st0 e b h1 h2 h5
  rw [h3] at hws
  cases hca : call_a2a_agent env (resolveAgentArn env (some (b.agentType.getD "onboarding")))
      b.message (some (derivedSessionId b)) with
  | ok res =>
    obtain ⟨stB, b1, b2, cl1, cl2, hh⟩ := handleAsync_call_ok env st1
      (some (b.agentType.getD "onboarding")) b.message b.id (some (derivedSessionId b))
      (wsConnId e) e res hca
    rw [h3] at hh
    have hasync : lambda_handler env st1 (LambdaEvent.asyncProcessing (defaultPayload e b)) =
        Except.ok (200, stB,
          [⟨wsConnId e, Message.progress (some rid) "Agent is thinking...", b1, cl1⟩,
           ⟨wsConnId e, Message.response (some rid) (some (b.agentType.getD "onboarding"))
             res.response res.sessionId, b2, cl2⟩], []) := by
      simp only [lambda_handler, defaultPayload, h3, hh]
    exact ⟨stA, stB, _, _,
      Message.response (some rid) (some (b.agentType.getD "onboarding"))
        res.response res.sessionId,
      hws, hasync, rfl, rfl, Or.inl ⟨rfl, by simp [msgType]⟩⟩
  | error err =>
    obtain ⟨stB, b1, b2, cl1, cl2, hh⟩ := handleAsync_call_error env st1
      (some (b.agentType.getD "onboarding")) b.message b.id (some (derivedSessionId b))
      (wsConnId e) e err hca
    rw [h3] at hh
    have hasync : lambda_handler env st1 (LambdaEvent.asyncProcessing (defaultPayload e b)) =
        Except.ok (200, stB,
          [⟨wsConnId e, Message.progress (some rid) "Agent is thinking...", b1, cl1⟩,
           ⟨wsConnId e, Message.error (some rid) err.msg, b2, cl2⟩], []) := by
      simp only [lambda_handler, defaultPayload, h3, hh]
    exact ⟨stA, stB, _, _, Message.error (some rid) err.msg,
      hws, hasync, rfl, rfl, Or.inr ⟨rfl, by simp [msgType]⟩⟩

/-- Witness for C1: the scenario request `{id: r1, agentType: onboarding,
message: hello}` with no sessionId, in an environment where everything
succeeds. -/
theorem c1_default_notification_sequence_witness :
    ∃ stA stB t1 t2 term,
      lambda_handler wEnv none (LambdaEvent.ws wEvent) =
        Except.ok (200, stA, t1, [defaultPayload wEvent wBody]) ∧
      lambda_handler wEnv none (LambdaEvent.asyncProcessing (defaultPayload wEvent wBody)) =
        Except.ok (200, stB, t2, []) ∧
      (t1 ++ t2).map SentMessage.message =
        [Message.acknowledged (some "r1") (some (wBody.agentType.getD "onboarding")),
         Message.progress (some "r1") "Agent is thinking...", term] ∧
      msgRequestId term = some "r1" ∧
      ((msgType term = "response" ∧ msgType term ≠ "error") ∨
       (msgType term = "error" ∧ msgType term ≠ "response")) :=
  c1_default_notification_sequence wEnv none none wEvent wBody "r1" "hello"
    rfl rfl rfl rfl rfl

/-- C2 counterexample: an `async_processing` event whose payload is missing
its fields (here: all of them) makes `lambda_handler` raise
`KeyError: agentType` before reaching its `try` block — the exception
propagates to the platform and no 200 status is returned, refuting the claim
for malformed marker payloads. -/
theorem c2_async_malformed_counterexample :
    lambda_handler wEnv none (LambdaEvent.asyncProcessing wEmptyPayload) =
      Except.error ⟨"KeyError: agentType"⟩ ∧
    ∀ r, lambda_handler wEnv none (LambdaEvent.asyncProcessing wEmptyPayload) ≠
      Except.ok r := by
  constructor
  · rfl
  · intro r h
    rw [show lambda_handler wEnv none (LambdaEvent.asyncProcessing wEmptyPayload) =
        Except.error ⟨"KeyError: agentType"⟩ from rfl] at h
    exact Except.noConfusion h

/-- C2 (amended): for every event carrying the `async_processing` marker whose
payload contains all six keys, the handler returns status 200 and no exception
propagates — whatever the outcome of the progress send, the agent invocation,
or the result send. -/
theorem c2_async_entry_always_ok (env : Env) (st : Option ApigwClient) (p : AsyncPayload)
    (h1 : p.agentType.isSome = true) (h2 : p.message.isSome = true)
    (h3 : p.requestId.isSome = true) (h4 : p.sessionId.isSome = true)
    (h5 : p.connectionId.isSome = true) (h6 : p.event.isSome = true) :
    ∃ st2 t, lambda_handler env st (LambdaEvent.asyncProcessing p) =
      Except.ok (200, st2, t, []) := by
  obtain ⟨A, M, R, S, C, E⟩ := p
  rcases A with _ | aty
  · simp at h1
  rcases M with _ | msg
  · simp at h2
  rcases R with _ | rid
  · simp at h3
  rcases S with _ | sid
  · simp at h4
  rcases C with _ | cid
  · simp at h5
  rcases E with _ | ev
  · simp at h6
  cases hca : call_a2a_agent env (resolveAgentArn env aty) msg sid with
  | ok res =>
    obtain ⟨st2, b1, b2, cl1, cl2, hh⟩ := handleAsync_call_ok env st aty msg rid sid cid ev
      res hca
    exact ⟨st2,
      [⟨cid, Message.progress rid "Agent is thinking...", b1, cl1⟩,
       ⟨cid, Message.response rid aty res.response res.sessionId, b2, cl2⟩],
      by simp [lambda_handler, hh]⟩
  | error err =>
    obtain ⟨st2, b1, b2, cl1, cl2, hh⟩ := handleAsync_call_error env st aty msg rid sid cid ev
      err hca
    exact ⟨st2,
      [⟨cid, Message.progress rid "Agent is thinking...", b1, cl1⟩,
       ⟨cid, Message.error rid err.msg, b2, cl2⟩],
      by simp [lambda_handler, hh]⟩

/-- Witness for C2 (amended): a well-formed payload in an environment whose
agent invocation raises still yields status 200. -/
theorem c2_async_entry_always_ok_witness :
    ∃ st2 t, lambda_handler wEnvFail none (LambdaEvent.asyncProcessing wPayload) =
      Except.ok (200, st2, t, []) :=
  c2_async_entry_always_ok wEnvFail none wPayload rfl rfl rfl rfl rfl rfl

/-- C3: if `call_a2a_agent` raises during async processing, the handler sends
exactly one `error` notification whose requestId is the originating request
id, and no `response` notification is sent for that request. -/
theorem c3_agent_failure_error_notification (env : Env) (st : Option ApigwClient)
    (aty msg rid sid cid : PyStr) (ev : WsEvent) (err : PyErr)
    (hca : call_a2a_agent env (resolveAgentArn env aty) msg sid = Except.error err) :
    ∃ st2 t,
      lambda_handler env st
          (LambdaEvent.asyncProcessing
            ⟨some aty, some msg, some rid, some sid, some cid, some ev⟩) =
        Except.ok (200, st2, t, []) ∧
      t.map SentMessage.message =
        [Message.progress rid "Agent is thinking...", Message.error rid err.msg] ∧
      t.filter (fun sm => msgType sm.message = "response") = [] ∧
      (t.filter (fun sm => msgType sm.message = "error")).map
        (fun sm => msgRequestId sm.message) = [rid] := by
  obtain ⟨st2, b1, b2, cl1, cl2, hh⟩ := handleAsync_call_error env st aty msg rid sid cid ev
    err hca
  refine ⟨st2,
    [⟨cid, Message.progress rid "Agent is thinking...", b1, cl1⟩,
     ⟨cid, Message.error rid err.msg, b2, cl2⟩], ?_, rfl, ?_, ?_⟩
  · simp [lambda_handler, hh]
  · simp [msgType]
  · simp [msgType, msgRequestId]

/-- Witness for C3: the scenario where the agent invocation raises
`TimeoutError` on request `r1`. -/
theorem c3_agent_failure_error_notification_witness :
    ∃ st2 t,
      lambda_handler wEnvFail none
          (LambdaEvent.asyncProcessing
            ⟨some (some "onboarding"), some (some "hello"), some (some "r1"),
             some (some "session-r1"), some (some "conn-1"), some wEvent⟩) =
        Except.ok (200, st2, t, []) ∧
      t.map SentMessage.message =
        [Message.progress (some "r1") "Agent is thinking...",
         Message.error (some "r1") (PyErr.mk "TimeoutError").msg] ∧
      t.filter (fun sm => msgType sm.message = "response") = [] ∧
      (t.filter (fun sm => msgType sm.message = "error")).map
        (fun sm => msgRequestId sm.message) = [some "r1"] :=
  c3_agent_failure_error_notification wEnvFail none (some "onboarding") (some "hello")
    (some "r1") (some "session-r1") (some "conn-1") wEvent ⟨"TimeoutError"⟩ rfl

/-- C10: a `$default` body with no `agentType` key is handled with the
substituted value `onboarding`: the acknowledged notification carries
agentType `onboarding`, the scheduled async payload carries it, and that value
routes to the onboarding agent identifier. -/
theorem c10_agent_type_default (env : Env) (st : Option ApigwClient) (e : WsEvent)
    (b : RequestBody)
    (h1 : wsRouteKey e = some "$default") (h2 : e.body = BodyVal.dict b)
    (h3 : b.agentType = none) (h5 : env.lambdaInvoke (defaultPayload e b) = none) :
    ∃ st2 bb cl,
      lambda_handler env st (LambdaEvent.ws e) =
        Except.ok (200, st2,
          [⟨wsConnId e, Message.acknowledged b.id (some "onboarding"), bb, cl⟩],
          [defaultPayload e b]) ∧
      (defaultPayload e b).agentType = some (some "onboarding") ∧
      resolveAgentArn env (some "onboarding") = env.onboardingArn := by
  obtain ⟨st2, bb, cl, hws⟩ := handleWs_default_ok env st e b h1 h2 h5
  refine ⟨st2, bb, cl, ?_, ?_, ?_⟩
  · simpa [h3] using hws
  · simp [defaultPayload, h3]
  · simp [resolveAgentArn]

/-- A `$default` body whose `agentType` key is absent. -/
def wBodyNoType : RequestBody := ⟨some "r2", none, some "hi", none⟩

/-- A well-formed `$default` event whose body has no `agentType`. -/
def wEventNoType : WsEvent := ⟨some wRC, BodyVal.dict wBodyNoType⟩

/-- Witness for C10 on a concrete `$default` event whose body omits
`agentType`. -/
theorem c10_agent_type_default_witness :
    ∃ st2 bb cl,
      lambda_handler wEnv none (LambdaEvent.ws wEventNoType) =
        Except.ok (200, st2,
          [⟨wsConnId wEventNoType, Message.acknowledged (some "r2") (some "onboarding"), bb, cl⟩],
          [defaultPayload wEventNoType wBodyNoType]) ∧
      (defaultPayload wEventNoType wBodyNoType).agentType = some (some "onboarding") ∧
      resolveAgentArn wEnv (some "onboarding") = wEnv.onboardingArn :=
  c10_agent_type_default wEnv none wEventNoType wBodyNoType rfl rfl rfl rfl

end Relay
